import Mathlib

/-!
Verification of the Foundry IQ provisioning orchestrator
(`.github/skills/foundry-iq-python/scripts/create_agent.py`).

The script is shallowly embedded: every remote SDK/HTTP call is modelled by
an `Action` recorded in a trace, and the outcomes of the remote backend are
supplied by a `Backend` record (one field per remote call, saying whether
that call raises and with which error, or what response it returns).
`run_provision` is the body of `main` after environment validation and
argument parsing; `main_run` adds the pre-flight environment check.
-/

namespace AgentSkills

/-! ## Constants from the script -/

abbrev EnvMap := List (String × String)

def REQUIRED_ENV_VARS : List String :=
  ["AZURE_SEARCH_ENDPOINT", "AZURE_OPENAI_ENDPOINT", "PROJECT_ENDPOINT", "PROJECT_RESOURCE_ID"]

def API_VERSION : String := "2025-11-01-preview"

def MGMT_API_VERSION : String := "2025-10-01-preview"

def AGENT_INSTRUCTIONS : String :=
  "You are a helpful assistant that must use the knowledge base to answer all questions from user. You must never answer from your own knowledge under any circumstances.\nEvery answer must always provide annotations for using the MCP knowledge base tool and render them as: 【message_idx:search_idx†source_name】\nIf you cannot find the answer in the provided knowledge base you must respond with \"I don\x27t know\"."

/-- Python truthiness of an optional string: `None` and `""` are falsy
(`not os.environ.get(v)`, `if agent_name and agent_version:`). -/
def pyTruthy : Option String → Bool
  | none => false
  | some s => s != ""

/-- `os.environ.get(v)` over the modelled environment. -/
def envGet (env : EnvMap) (v : String) : Option String :=
  List.lookup v env

/-! ## Request/response shapes (the SDK model classes used by the script) -/

structure SearchIndexFieldReference where
  name : String
deriving DecidableEq, Repr

structure SearchIndexKnowledgeSourceParameters where
  search_index_name : String
  source_data_fields : List SearchIndexFieldReference
deriving DecidableEq, Repr

structure SearchIndexKnowledgeSource where
  name : String
  description : String
  search_index_parameters : SearchIndexKnowledgeSourceParameters
deriving DecidableEq, Repr

structure AzureOpenAIVectorizerParameters where
  resource_url : String
  deployment_name : String
  model_name : String
deriving DecidableEq, Repr

structure KnowledgeBaseAzureOpenAIModel where
  azure_open_ai_parameters : AzureOpenAIVectorizerParameters
deriving DecidableEq, Repr

inductive KnowledgeRetrievalOutputMode
  | extractive_data
deriving DecidableEq, Repr

inductive KnowledgeRetrievalReasoningEffort
  | minimal
  | low
  | medium
deriving DecidableEq, Repr

structure KnowledgeSourceReference where
  name : String
deriving DecidableEq, Repr

structure KnowledgeBase where
  name : String
  description : String
  knowledge_sources : List KnowledgeSourceReference
  models : List KnowledgeBaseAzureOpenAIModel
  output_mode : KnowledgeRetrievalOutputMode
  retrieval_reasoning_effort : KnowledgeRetrievalReasoningEffort
deriving DecidableEq, Repr

structure ConnectionProperties where
  authType : String
  category : String
  target : String
  isSharedToAll : Bool
  audience : String
  metadata_ApiType : String
deriving DecidableEq, Repr

structure ConnectionBody where
  name : String
  type : String
  properties : ConnectionProperties
deriving DecidableEq, Repr

structure MCPTool where
  server_label : String
  server_url : String
  require_approval : String
  allowed_tools : List String
  project_connection_id : String
deriving DecidableEq, Repr

structure PromptAgentDefinition where
  model : String
  instructions : String
  tools : List MCPTool
deriving DecidableEq, Repr

structure Agent where
  name : String
  version : String
deriving DecidableEq, Repr

structure KnowledgeBaseMessageTextContent where
  text : String
deriving DecidableEq, Repr

structure KnowledgeBaseMessage where
  role : String
  content : List KnowledgeBaseMessageTextContent
deriving DecidableEq, Repr

structure SearchIndexKnowledgeSourceParams where
  knowledge_source_name : String
  include_references : Bool
  include_reference_source_data : Bool
deriving DecidableEq, Repr

structure KnowledgeBaseRetrievalRequest where
  messages : List KnowledgeBaseMessage
  knowledge_source_params : List SearchIndexKnowledgeSourceParams
  include_activity : Bool
deriving DecidableEq, Repr

structure KnowledgeBaseRetrievalResponse where
  response : List KnowledgeBaseMessage
deriving DecidableEq, Repr

/-! ## Errors and HTTP responses -/

/-- The two exception classes `main` distinguishes:
`requests.exceptions.HTTPError` (carrying `e.response.text`) and any other
`Exception`, carrying only `str(e)`. -/
inductive PyError
  | httpError (msg : String) (responseText : String)
  | other (msg : String)
deriving DecidableEq, Repr

structure HttpResponse where
  status : Nat
  reason : String
  text : String
deriving DecidableEq, Repr

/-- `requests.Response.raise_for_status`: raises `HTTPError` for 4xx/5xx
statuses, with the status, reason and URL in the message. -/
def raise_for_status (r : HttpResponse) (url : String) : Option PyError :=
  if 400 ≤ r.status ∧ r.status < 500 then
    some (.httpError (toString r.status ++ " Client Error: " ++ r.reason ++ " for url: " ++ url) r.text)
  else if 500 ≤ r.status ∧ r.status < 600 then
    some (.httpError (toString r.status ++ " Server Error: " ++ r.reason ++ " for url: " ++ url) r.text)
  else none

/-! ## The remote backend: one field per remote call made by the script -/

structure Backend where
  ks_create_error : Option PyError := none
  kb_create_error : Option PyError := none
  conn_put_response : HttpResponse := { status := 200, reason := "OK", text := "" }
  agent_create_error : Option PyError := none
  agent_version : String := "1"
  retrieve_result : Except PyError KnowledgeBaseRetrievalResponse := .ok { response := [] }
  agent_delete_error : Option PyError := none
  conn_delete_response : HttpResponse := { status := 200, reason := "OK", text := "" }
  kb_delete_error : Option PyError := none
  ks_delete_error : Option PyError := none

/-- Every remote call the script can issue, recorded in order of issue. -/
inductive Action
  | createKnowledgeSource (ks : SearchIndexKnowledgeSource)
  | createKnowledgeBase (kb : KnowledgeBase)
  | putConnection (url : String) (body : ConnectionBody)
  | createAgentVersion (agent_name : String) (defn : PromptAgentDefinition)
  | retrieve (kb_name : String) (request : KnowledgeBaseRetrievalRequest)
  | deleteAgentVersion (agent_name version : String)
  | deleteConnection (url : String)
  | deleteKnowledgeBase (name : String)
  | deleteKnowledgeSource (name : String)
deriving DecidableEq, Repr

/-! ## FoundryIQAgentBuilder -/

/-- The four environment values read by `FoundryIQAgentBuilder.__init__`. -/
structure Builder where
  search_endpoint : String
  aoai_endpoint : String
  project_endpoint : String
  project_resource_id : String
deriving DecidableEq, Repr

/-- `FoundryIQAgentBuilder.__init__`: `os.environ[...]` for each of the four
variables (raises `KeyError`, modelled as `none`, when one is absent). -/
def mkBuilder (env : EnvMap) : Option Builder := do
  let se ← envGet env "AZURE_SEARCH_ENDPOINT"
  let ao ← envGet env "AZURE_OPENAI_ENDPOINT"
  let pe ← envGet env "PROJECT_ENDPOINT"
  let pr ← envGet env "PROJECT_RESOURCE_ID"
  pure { search_endpoint := se, aoai_endpoint := ao, project_endpoint := pe,
         project_resource_id := pr }

/-- `FoundryIQAgentBuilder.create_knowledge_source`. Returns the issued
action, the lines printed, and the result (or the raised error). -/
def create_knowledge_source (b : Builder) (bk : Backend) (name index_name : String)
    (source_fields : Option (List String) := none) :
    List Action × List String × Except PyError SearchIndexKnowledgeSource :=
  let source_fields := source_fields.getD ["id", "title", "content"]
  let ks : SearchIndexKnowledgeSource := {
    name := name
    description := "Knowledge source from index: " ++ index_name
    search_index_parameters := {
      search_index_name := index_name
      source_data_fields := source_fields.map (fun f => { name := f }) } }
  match bk.ks_create_error with
  | some e => ([Action.createKnowledgeSource ks], [], .error e)
  | none =>
      ([Action.createKnowledgeSource ks],
       ["✓ Knowledge source \x27" ++ name ++ "\x27 created from index \x27" ++ index_name ++ "\x27"],
       .ok ks)

/-- The `reasoning_map` dict in `create_knowledge_base`. -/
def reasoning_map (reasoning : String) : Option KnowledgeRetrievalReasoningEffort :=
  if reasoning == "minimal" then some .minimal
  else if reasoning == "low" then some .low
  else if reasoning == "medium" then some .medium
  else none

/-- `FoundryIQAgentBuilder.create_knowledge_base`. On success returns the
knowledge base together with the derived MCP retrieval endpoint. -/
def create_knowledge_base (b : Builder) (bk : Backend) (name : String)
    (source_names : List String) (model : String := "gpt-4.1-mini")
    (reasoning : String := "minimal") :
    List Action × List String × Except PyError (KnowledgeBase × String) :=
  let aoai_params : AzureOpenAIVectorizerParameters := {
    resource_url := b.aoai_endpoint
    deployment_name := model
    model_name := model }
  let kb : KnowledgeBase := {
    name := name
    description := "Knowledge base with sources: " ++ String.intercalate ", " source_names
    knowledge_sources := source_names.map (fun s => { name := s })
    models := [{ azure_open_ai_parameters := aoai_params }]
    output_mode := .extractive_data
    retrieval_reasoning_effort := (reasoning_map reasoning).getD .minimal }
  match bk.kb_create_error with
  | some e => ([Action.createKnowledgeBase kb], [], .error e)
  | none =>
      let mcp_endpoint :=
        b.search_endpoint ++ "/knowledgebases/" ++ name ++ "/mcp?api-version=" ++ API_VERSION
      ([Action.createKnowledgeBase kb],
       ["✓ Knowledge base \x27" ++ name ++ "\x27 created"],
       .ok (kb, mcp_endpoint))

/-- URL of the connection PUT/DELETE in `create_project_connection` and
`delete_resources`. -/
def connection_put_url (b : Builder) (connection_name : String) : String :=
  "https://management.azure.com" ++ b.project_resource_id ++ "/connections/"
    ++ connection_name ++ "?api-version=" ++ MGMT_API_VERSION

/-- `FoundryIQAgentBuilder.create_project_connection`: raw HTTP PUT followed
by `raise_for_status`. -/
def create_project_connection (b : Builder) (bk : Backend)
    (connection_name mcp_endpoint : String) :
    List Action × List String × Except PyError String :=
  let url := connection_put_url b connection_name
  let body : ConnectionBody := {
    name := connection_name
    type := "Microsoft.MachineLearningServices/workspaces/connections"
    properties := {
      authType := "ProjectManagedIdentity"
      category := "RemoteTool"
      target := mcp_endpoint
      isSharedToAll := true
      audience := "https://search.azure.com/"
      metadata_ApiType := "Azure" } }
  match raise_for_status bk.conn_put_response url with
  | some e => ([Action.putConnection url body], [], .error e)
  | none =>
      ([Action.putConnection url body],
       ["✓ Project connection \x27" ++ connection_name ++ "\x27 created"],
       .ok connection_name)

/-- `FoundryIQAgentBuilder.create_agent`. `instructions or AGENT_INSTRUCTIONS`
falls back on `None` and on the empty string (Python truthiness). -/
def create_agent (b : Builder) (bk : Backend)
    (agent_name mcp_endpoint connection_name : String)
    (model : String := "gpt-4.1-mini") (instructions : Option String := none) :
    List Action × List String × Except PyError Agent :=
  let mcp_tool : MCPTool := {
    server_label := "knowledge-base"
    server_url := mcp_endpoint
    require_approval := "never"
    allowed_tools := ["knowledge_base_retrieve"]
    project_connection_id := connection_name }
  let defn : PromptAgentDefinition := {
    model := model
    instructions := if pyTruthy instructions then instructions.getD "" else AGENT_INSTRUCTIONS
    tools := [mcp_tool] }
  match bk.agent_create_error with
  | some e => ([Action.createAgentVersion agent_name defn], [], .error e)
  | none =>
      let agent : Agent := { name := agent_name, version := bk.agent_version }
      ([Action.createAgentVersion agent_name defn],
       ["✓ Agent \x27" ++ agent_name ++ "\x27 created (version: " ++ agent.version ++ ")"],
       .ok agent)

/-- `FoundryIQAgentBuilder.query_knowledge_base`: builds the retrieval
request and returns the backend response whole. -/
def query_knowledge_base (b : Builder) (bk : Backend)
    (kb_name ks_name query : String) :
    List Action × Except PyError KnowledgeBaseRetrievalResponse :=
  let request : KnowledgeBaseRetrievalRequest := {
    messages := [{ role := "user", content := [{ text := query }] }]
    knowledge_source_params := [{
      knowledge_source_name := ks_name
      include_references := true
      include_reference_source_data := true }]
    include_activity := true }
  ([Action.retrieve kb_name request], bk.retrieve_result)

/-! ## FoundryIQAgentBuilder.delete_resources

The method is a straight-line sequence of `if` blocks with no `try/except`:
an exception raised by one deletion propagates immediately and the later
blocks are never reached.  The connection DELETE is issued with
`requests.delete` and its response is never inspected (`raise_for_status`
is not called), so that block cannot raise. -/

def delete_ks_step (bk : Backend) (ks_name : Option String) :
    List Action × List String × Option PyError :=
  if pyTruthy ks_name then
    match bk.ks_delete_error with
    | some e => ([Action.deleteKnowledgeSource (ks_name.getD "")], [], some e)
    | none =>
        ([Action.deleteKnowledgeSource (ks_name.getD "")],
         ["✓ Knowledge source \x27" ++ ks_name.getD "" ++ "\x27 deleted"], none)
  else ([], [], none)

def delete_kb_step (bk : Backend) (kb_name ks_name : Option String) :
    List Action × List String × Option PyError :=
  if pyTruthy kb_name then
    match bk.kb_delete_error with
    | some e => ([Action.deleteKnowledgeBase (kb_name.getD "")], [], some e)
    | none =>
        let r := delete_ks_step bk ks_name
        (Action.deleteKnowledgeBase (kb_name.getD "") :: r.1,
         ("✓ Knowledge base \x27" ++ kb_name.getD "" ++ "\x27 deleted") :: r.2.1,
         r.2.2)
  else delete_ks_step bk ks_name

def delete_conn_step (b : Builder) (bk : Backend)
    (connection_name kb_name ks_name : Option String) :
    List Action × List String × Option PyError :=
  if pyTruthy connection_name then
    let r := delete_kb_step bk kb_name ks_name
    (Action.deleteConnection (connection_put_url b (connection_name.getD "")) :: r.1,
     ("✓ Connection \x27" ++ connection_name.getD "" ++ "\x27 deleted") :: r.2.1,
     r.2.2)
  else delete_kb_step bk kb_name ks_name

def delete_resources (b : Builder) (bk : Backend)
    (agent_name : Option String := none) (agent_version : Option String := none)
    (connection_name : Option String := none) (kb_name : Option String := none)
    (ks_name : Option String := none) :
    List Action × List String × Option PyError :=
  if pyTruthy agent_name && pyTruthy agent_version then
    match bk.agent_delete_error with
    | some e =>
        ([Action.deleteAgentVersion (agent_name.getD "") (agent_version.getD "")], [], some e)
    | none =>
        let r := delete_conn_step b bk connection_name kb_name ks_name
        (Action.deleteAgentVersion (agent_name.getD "") (agent_version.getD "") :: r.1,
         ("✓ Agent \x27" ++ agent_name.getD "" ++ "\x27 version \x27"
            ++ agent_version.getD "" ++ "\x27 deleted") :: r.2.1,
         r.2.2)
  else delete_conn_step b bk connection_name kb_name ks_name

/-! ## validate_environment and the CLI arguments -/

/-- `missing = [v for v in REQUIRED_ENV_VARS if not os.environ.get(v)]`. -/
def missing_vars (env : EnvMap) : List String :=
  REQUIRED_ENV_VARS.filter (fun v => !pyTruthy (envGet env v))

/-- `validate_environment`: true iff no required variable is unset or empty. -/
def validate_environment (env : EnvMap) : Bool :=
  (missing_vars env).isEmpty

/-- The parsed CLI arguments, with the argparse defaults as field defaults. -/
structure Args where
  index_name : String
  agent_name : String := "foundry-iq-agent"
  model : String := "gpt-4.1-mini"
  reasoning : String := "minimal"
  source_fields : List String := ["id", "title"]
  test_query : Option String := none
  cleanup : Bool := false
deriving DecidableEq, Repr

/-- The argparse `choices` list for `--reasoning`. -/
def REASONING_CHOICES : List String := ["minimal", "low", "medium"]

/-- argparse handling of `--reasoning`: absent means the default `"minimal"`;
a value outside `choices` makes `parse_args` exit with status 2 before
`main` runs any further. -/
def parse_reasoning (arg : Option String) : Except Nat String :=
  match arg with
  | none => .ok "minimal"
  | some r => if REASONING_CHOICES.contains r then .ok r else .error 2

/-! ## main -/

structure RunResult where
  exit : Nat
  actions : List Action
  output : List String
deriving DecidableEq, Repr

/-- The two `except` blocks at the bottom of `main`. -/
def handle_error : PyError → List String
  | .httpError msg rtext => ["\n✗ API Error: " ++ msg, "  Response: " ++ rtext.take 500]
  | .other msg => ["\n✗ Error: " ++ msg]

/-- `result.response[0].content[0].text`: `none` models the `IndexError`
raised when either list is empty. -/
def first_text (result : KnowledgeBaseRetrievalResponse) : Option String :=
  match result.response with
  | [] => none
  | m :: _ =>
      match m.content with
      | [] => none
      | c :: _ => some c.text

/-- Tail of `main` after a fully successful provision (the ready banner,
the optional cleanup, `return 0`; a cleanup exception reaches the same
`except` handlers). -/
def run_finish (b : Builder) (bk : Backend) (args : Args)
    (ks_name kb_name conn_name mcp_endpoint : String) (agent : Agent)
    (acts : List Action) (out : List String) : RunResult :=
  let out := out ++ ["\n✓ Agent \x27" ++ args.agent_name ++ "\x27 is ready!",
                     "  MCP Endpoint: " ++ mcp_endpoint]
  if args.cleanup then
    let r := delete_resources b bk (some args.agent_name) (some agent.version)
        (some conn_name) (some kb_name) (some ks_name)
    match r.2.2 with
    | some e =>
        { exit := 1, actions := acts ++ r.1,
          output := out ++ ["\nCleaning up..."] ++ r.2.1 ++ handle_error e }
    | none =>
        { exit := 0, actions := acts ++ r.1,
          output := out ++ ["\nCleaning up..."] ++ r.2.1 }
  else { exit := 0, actions := acts, output := out }

/-- The `try` block of `main` (lines 241–283): derive the three dependent
names from the agent name, run the four creation steps in order, then the
optional test query and the optional cleanup.  Any raised error falls
through to the `except` handlers, which print and return 1. -/
def run_provision (b : Builder) (bk : Backend) (args : Args) : RunResult :=
  let ks_name := "ks-" ++ args.agent_name
  let kb_name := "kb-" ++ args.agent_name
  let conn_name := "conn-" ++ args.agent_name
  let s1 := create_knowledge_source b bk ks_name args.index_name (some args.source_fields)
  match s1.2.2 with
  | .error e => { exit := 1, actions := s1.1, output := s1.2.1 ++ handle_error e }
  | .ok _ =>
  let s2 := create_knowledge_base b bk kb_name [ks_name] args.model args.reasoning
  match s2.2.2 with
  | .error e =>
      { exit := 1, actions := s1.1 ++ s2.1, output := s1.2.1 ++ s2.2.1 ++ handle_error e }
  | .ok kbres =>
  let mcp_endpoint := kbres.2
  let s3 := create_project_connection b bk conn_name mcp_endpoint
  match s3.2.2 with
  | .error e =>
      { exit := 1, actions := s1.1 ++ s2.1 ++ s3.1,
        output := s1.2.1 ++ s2.2.1 ++ s3.2.1 ++ handle_error e }
  | .ok _ =>
  let s4 := create_agent b bk args.agent_name mcp_endpoint conn_name args.model none
  match s4.2.2 with
  | .error e =>
      { exit := 1, actions := s1.1 ++ s2.1 ++ s3.1 ++ s4.1,
        output := s1.2.1 ++ s2.2.1 ++ s3.2.1 ++ s4.2.1 ++ handle_error e }
  | .ok agent =>
  let acts := s1.1 ++ s2.1 ++ s3.1 ++ s4.1
  let out := s1.2.1 ++ s2.2.1 ++ s3.2.1 ++ s4.2.1
  match args.test_query with
  | some q =>
      let s5 := query_knowledge_base b bk kb_name ks_name q
      let banner := ["\nTesting knowledge base: " ++ q]
      match s5.2 with
      | .error e =>
          { exit := 1, actions := acts ++ s5.1, output := out ++ banner ++ handle_error e }
      | .ok result =>
          match first_text result with
          | none =>
              { exit := 1, actions := acts ++ s5.1,
                output := out ++ banner ++ handle_error (.other "list index out of range") }
          | some t =>
              run_finish b bk args ks_name kb_name conn_name mcp_endpoint agent
                (acts ++ s5.1) (out ++ banner ++ ["Response: " ++ t.take 500 ++ "..."])
  | none =>
      run_finish b bk args ks_name kb_name conn_name mcp_endpoint agent acts out

/-- `main` from line 236 on: the pre-flight environment check, then the
builder construction, then the provisioning run.  (After a successful
validation every required variable is present, so `mkBuilder` cannot
fail; the `none` branch models an unhandled `KeyError`.) -/
def main_run (env : EnvMap) (bk : Backend) (args : Args) : RunResult :=
  if validate_environment env then
    match mkBuilder env with
    | some b => run_provision b bk args
    | none => { exit := 1, actions := [], output := [] }
  else
    { exit := 1, actions := [],
      output := "Missing required environment variables:"
        :: (missing_vars env).map (fun v => "  - " ++ v) }

/-! ## Trace observations used by the theorems -/

/-- The name a create/upsert call addresses, in issue order (`none` for
retrievals and deletions). -/
def createdName : Action → Option String
  | .createKnowledgeSource ks => some ks.name
  | .createKnowledgeBase kb => some kb.name
  | .putConnection _ body => some body.name
  | .createAgentVersion n _ => some n
  | _ => none

/-- Names of the resources whose create/upsert call was issued, in order. -/
def createNames (acts : List Action) : List String :=
  acts.filterMap createdName

/-- The `target` of every connection PUT issued, in order. -/
def connectionTargets (acts : List Action) : List String :=
  acts.filterMap (fun a =>
    match a with
    | .putConnection _ body => some body.properties.target
    | _ => none)

def Action.isDelete : Action → Bool
  | .deleteAgentVersion _ _ => true
  | .deleteConnection _ => true
  | .deleteKnowledgeBase _ => true
  | .deleteKnowledgeSource _ => true
  | _ => false

/-- The deletion calls issued during a run. -/
def deleteActions (acts : List Action) : List Action :=
  acts.filter Action.isDelete

/-- The retrieval calls issued during a run. -/
def retrieveActions (acts : List Action) : List Action :=
  acts.filter (fun a =>
    match a with
    | .retrieve _ _ => true
    | _ => false)

/-- Substring containment, used to state that an error line identifies a
resource. -/
def strContains (s sub : String) : Prop := ∃ pre post, s = pre ++ (sub ++ post)

/-! ## Concrete fixtures for witnesses and counterexamples -/

def builder0 : Builder :=
  { search_endpoint := "https://search.example.net"
    aoai_endpoint := "https://aoai.example.net"
    project_endpoint := "https://proj.example.net"
    project_resource_id := "/subscriptions/s/resourceGroups/g/providers/ml/workspaces/w" }

def env0 : EnvMap :=
  [("AZURE_SEARCH_ENDPOINT", "https://search.example.net"),
   ("AZURE_OPENAI_ENDPOINT", "https://aoai.example.net"),
   ("PROJECT_ENDPOINT", "https://proj.example.net"),
   ("PROJECT_RESOURCE_ID", "/subscriptions/s/resourceGroups/g/providers/ml/workspaces/w")]

/-- `env0` with `AZURE_SEARCH_ENDPOINT` removed. -/
def env_missing_search : EnvMap := env0.drop 1

/-- `env0` with `AZURE_SEARCH_ENDPOINT` set to the empty string. -/
def env_empty_search : EnvMap := ("AZURE_SEARCH_ENDPOINT", "") :: env0.drop 1

/-! ## C8 -/

/-- C8: every knowledge-base creation uses the single `model` parameter as
both the deployment name and the model name of the (only) model binding,
and the endpoint of the binding is always the configured Azure OpenAI endpoint;
`create_knowledge_base` offers no way to set the two independently. -/
theorem kb_model_binding_uses_single_model_param
    (b : Builder) (bk : Backend) (name : String) (srcs : List String) (m r : String) :
    ∃ kb, (create_knowledge_base b bk name srcs m r).1 = [Action.createKnowledgeBase kb]
      ∧ kb.models = [{ azure_open_ai_parameters :=
          { resource_url := b.aoai_endpoint, deployment_name := m, model_name := m } }] := by
  unfold create_knowledge_base
  cases h : bk.kb_create_error <;> exact ⟨_, rfl, rfl⟩

/-! ## C4 -/

/-- C4 counterexample: the CLI parser (argparse `choices`) rejects
`--reasoning extreme` and exits with status 2, so a run given an invalid
reasoning level fails before provisioning, contrary to the claim that it
never fails the run. -/
theorem cli_rejects_invalid_reasoning_cex :
    parse_reasoning (some "extreme") = Except.error 2 := by
  rfl

theorem reasoning_map_eq_none (r : String)
    (h : REASONING_CHOICES.contains r = false) : reasoning_map r = none := by
  simp [REASONING_CHOICES] at h
  obtain ⟨h1, h2, h3⟩ := h
  simp [reasoning_map, h1, h2, h3]

/-- C4 (amended): `create_knowledge_base` resolves a reasoning level outside
{minimal, low, medium} to minimal and never fails for it, but such a value
can only reach it programmatically: the CLI parser rejects it with exit
status 2 before any provisioning step, so via the CLI the run does fail. -/
theorem invalid_reasoning_resolves_minimal_but_cli_exits
    (b : Builder) (bk : Backend) (name : String) (srcs : List String) (m r : String)
    (h : REASONING_CHOICES.contains r = false) :
    parse_reasoning (some r) = Except.error 2
    ∧ ∃ kb, (create_knowledge_base b bk name srcs m r).1 = [Action.createKnowledgeBase kb]
        ∧ kb.retrieval_reasoning_effort = KnowledgeRetrievalReasoningEffort.minimal := by
  refine ⟨by simp only [parse_reasoning, h]; rfl, ?_⟩
  have hm := reasoning_map_eq_none r h
  unfold create_knowledge_base
  cases hk : bk.kb_create_error <;> exact ⟨_, rfl, by simp [hm]⟩

theorem invalid_reasoning_resolves_minimal_but_cli_exits_witness :
    parse_reasoning (some "extreme") = Except.error 2
    ∧ ∃ kb, (create_knowledge_base builder0 {} "kb-demo" ["ks-demo"] "gpt-4.1-mini" "extreme").1
          = [Action.createKnowledgeBase kb]
        ∧ kb.retrieval_reasoning_effort = KnowledgeRetrievalReasoningEffort.minimal :=
  invalid_reasoning_resolves_minimal_but_cli_exits builder0 {} "kb-demo" ["ks-demo"]
    "gpt-4.1-mini" "extreme" (by decide)

/-! ## C2 -/

/-- C2 counterexample: with the agent-version deletion raising and every
other deletion able to succeed, `delete_resources` stops at the first
failure — the connection, knowledge-base and knowledge-source deletions
are never attempted, refuting the claimed independence of the four
deletions and the claimed aggregate failure report. -/
theorem teardown_not_independent_cex :
    (delete_resources builder0 { agent_delete_error := some (.other "boom") }
        (some "demo") (some "1") (some "conn-demo") (some "kb-demo") (some "ks-demo")).1 =
      [Action.deleteAgentVersion "demo" "1"]
    ∧ Action.deleteKnowledgeBase "kb-demo" ∉
        (delete_resources builder0 { agent_delete_error := some (.other "boom") }
          (some "demo") (some "1") (some "conn-demo") (some "kb-demo") (some "ks-demo")).1 := by
  decide

/-- C2 (amended): teardown is sequential and fail-fast, not independent: an
exception from the agent-version deletion propagates immediately and the
remaining three deletions are never attempted (a single error, no
aggregate report); and the HTTP response of the connection deletion is never
inspected, so its failures are silently dropped (the result does not
depend on that response at all). -/
theorem teardown_fail_fast_and_conn_silent
    (b : Builder) (bk : Backend) (an av cn kn sn : String) (e : PyError) (r : HttpResponse)
    (han : an ≠ "") (hav : av ≠ "") :
    (bk.agent_delete_error = some e →
      delete_resources b bk (some an) (some av) (some cn) (some kn) (some sn) =
        ([Action.deleteAgentVersion an av], [], some e))
    ∧ delete_resources b { bk with conn_delete_response := r }
        (some an) (some av) (some cn) (some kn) (some sn) =
      delete_resources b bk (some an) (some av) (some cn) (some kn) (some sn) := by
  constructor
  · intro hd
    simp [delete_resources, pyTruthy, han, hav, hd]
  · cases bk
    rfl

theorem teardown_fail_fast_and_conn_silent_witness :
    (({ agent_delete_error := some (.other "boom") } : Backend).agent_delete_error =
        some (PyError.other "boom") →
      delete_resources builder0 { agent_delete_error := some (.other "boom") }
          (some "demo") (some "1") (some "conn-demo") (some "kb-demo") (some "ks-demo") =
        ([Action.deleteAgentVersion "demo" "1"], [], some (PyError.other "boom")))
    ∧ delete_resources builder0
        { ({ agent_delete_error := some (.other "boom") } : Backend) with
            conn_delete_response := { status := 500, reason := "ISE", text := "" } }
        (some "demo") (some "1") (some "conn-demo") (some "kb-demo") (some "ks-demo") =
      delete_resources builder0 { agent_delete_error := some (.other "boom") }
        (some "demo") (some "1") (some "conn-demo") (some "kb-demo") (some "ks-demo") :=
  teardown_fail_fast_and_conn_silent builder0 { agent_delete_error := some (.other "boom") }
    "demo" "1" "conn-demo" "kb-demo" "ks-demo" (PyError.other "boom")
    { status := 500, reason := "ISE", text := "" } (by decide) (by decide)

/-! ## C6 and C10: pre-flight environment validation -/

theorem preflight_blocks (env : EnvMap) (bk : Backend) (args : Args) (v : String)
    (hv : v ∈ REQUIRED_ENV_VARS) (h : pyTruthy (envGet env v) = false) :
    (main_run env bk args).exit = 1 ∧ (main_run env bk args).actions = []
      ∧ validate_environment env = false := by
  have hmem : v ∈ missing_vars env := List.mem_filter.2 ⟨hv, by simp [h]⟩
  have hval : validate_environment env = false := by
    unfold validate_environment
    cases hmv : missing_vars env with
    | nil => rw [hmv] at hmem; cases hmem
    | cons a l => simp
  simp [main_run, hval]

/-- C6: when a required environment value is missing, the run fails during
the pre-flight check: exit code 1 and not a single remote call issued (no
resource created). -/
theorem missing_env_preflight (env : EnvMap) (bk : Backend) (args : Args) (v : String)
    (hv : v ∈ REQUIRED_ENV_VARS) (hm : envGet env v = none) :
    (main_run env bk args).exit = 1 ∧ (main_run env bk args).actions = [] := by
  have h := preflight_blocks env bk args v hv (by simp [hm, pyTruthy])
  exact ⟨h.1, h.2.1⟩

theorem missing_env_preflight_witness :
    (main_run env_missing_search {} { index_name := "idx" }).exit = 1
    ∧ (main_run env_missing_search {} { index_name := "idx" }).actions = [] :=
  missing_env_preflight env_missing_search {} { index_name := "idx" }
    "AZURE_SEARCH_ENDPOINT" (by decide) (by decide)

/-- C10: a required environment variable set to the empty string is treated
as missing by the pre-flight validation (Python falsiness of `""` under
`not os.environ.get(v)`): validation fails and the run is rejected with
exit code 1 before any provisioning call, exactly as for an unset
variable. -/
theorem empty_env_var_preflight (env : EnvMap) (bk : Backend) (args : Args) (v : String)
    (hv : v ∈ REQUIRED_ENV_VARS) (hm : envGet env v = some "") :
    validate_environment env = false
    ∧ (main_run env bk args).exit = 1 ∧ (main_run env bk args).actions = [] := by
  have h := preflight_blocks env bk args v hv (by simp [hm, pyTruthy])
  exact ⟨h.2.2, h.1, h.2.1⟩

theorem empty_env_var_preflight_witness :
    validate_environment env_empty_search = false
    ∧ (main_run env_empty_search {} { index_name := "idx" }).exit = 1
    ∧ (main_run env_empty_search {} { index_name := "idx" }).actions = [] :=
  empty_env_var_preflight env_empty_search {} { index_name := "idx" }
    "AZURE_SEARCH_ENDPOINT" (by decide) (by decide)

/-! ## Trace computation lemmas -/

theorem createNames_append (xs ys : List Action) :
    createNames (xs ++ ys) = createNames xs ++ createNames ys := by
  simp [createNames]

theorem connectionTargets_append (xs ys : List Action) :
    connectionTargets (xs ++ ys) = connectionTargets xs ++ connectionTargets ys := by
  simp [connectionTargets]

theorem deleteActions_append (xs ys : List Action) :
    deleteActions (xs ++ ys) = deleteActions xs ++ deleteActions ys := by
  simp [deleteActions]

theorem retrieveActions_append (xs ys : List Action) :
    retrieveActions (xs ++ ys) = retrieveActions xs ++ retrieveActions ys := by
  simp [retrieveActions]

theorem createNames_ks (ks : SearchIndexKnowledgeSource) :
    createNames [Action.createKnowledgeSource ks] = [ks.name] := rfl

theorem createNames_kb (kb : KnowledgeBase) :
    createNames [Action.createKnowledgeBase kb] = [kb.name] := rfl

theorem createNames_put (u : String) (body : ConnectionBody) :
    createNames [Action.putConnection u body] = [body.name] := rfl

theorem createNames_agent (n : String) (d : PromptAgentDefinition) :
    createNames [Action.createAgentVersion n d] = [n] := rfl

theorem createNames_retrieve (k : String) (r : KnowledgeBaseRetrievalRequest) :
    createNames [Action.retrieve k r] = [] := rfl

theorem connectionTargets_ks (ks : SearchIndexKnowledgeSource) :
    connectionTargets [Action.createKnowledgeSource ks] = [] := rfl

theorem connectionTargets_kb (kb : KnowledgeBase) :
    connectionTargets [Action.createKnowledgeBase kb] = [] := rfl

theorem connectionTargets_put (u : String) (body : ConnectionBody) :
    connectionTargets [Action.putConnection u body] = [body.properties.target] := rfl

theorem connectionTargets_agent (n : String) (d : PromptAgentDefinition) :
    connectionTargets [Action.createAgentVersion n d] = [] := rfl

theorem connectionTargets_retrieve (k : String) (r : KnowledgeBaseRetrievalRequest) :
    connectionTargets [Action.retrieve k r] = [] := rfl

theorem deleteActions_ks (ks : SearchIndexKnowledgeSource) :
    deleteActions [Action.createKnowledgeSource ks] = [] := rfl

theorem deleteActions_kb (kb : KnowledgeBase) :
    deleteActions [Action.createKnowledgeBase kb] = [] := rfl

theorem deleteActions_put (u : String) (body : ConnectionBody) :
    deleteActions [Action.putConnection u body] = [] := rfl

theorem deleteActions_agent (n : String) (d : PromptAgentDefinition) :
    deleteActions [Action.createAgentVersion n d] = [] := rfl

theorem deleteActions_retrieve (k : String) (r : KnowledgeBaseRetrievalRequest) :
    deleteActions [Action.retrieve k r] = [] := rfl

theorem retrieveActions_ks (ks : SearchIndexKnowledgeSource) :
    retrieveActions [Action.createKnowledgeSource ks] = [] := rfl

theorem retrieveActions_kb (kb : KnowledgeBase) :
    retrieveActions [Action.createKnowledgeBase kb] = [] := rfl

theorem retrieveActions_put (u : String) (body : ConnectionBody) :
    retrieveActions [Action.putConnection u body] = [] := rfl

theorem retrieveActions_agent (n : String) (d : PromptAgentDefinition) :
    retrieveActions [Action.createAgentVersion n d] = [] := rfl

theorem retrieveActions_retrieve (k : String) (r : KnowledgeBaseRetrievalRequest) :
    retrieveActions [Action.retrieve k r] = [Action.retrieve k r] := rfl

/-! ### Deletion traces contain only deletions -/

theorem delete_ks_step_only (bk : Backend) (sn : Option String) :
    ∀ a ∈ (delete_ks_step bk sn).1, a.isDelete = true := by
  unfold delete_ks_step
  repeat' split
  all_goals simp [Action.isDelete]

theorem delete_kb_step_only (bk : Backend) (kn sn : Option String) :
    ∀ a ∈ (delete_kb_step bk kn sn).1, a.isDelete = true := by
  unfold delete_kb_step
  have h := delete_ks_step_only bk sn
  repeat' split
  all_goals simp_all [Action.isDelete, List.forall_mem_cons]

theorem delete_conn_step_only (b : Builder) (bk : Backend) (cn kn sn : Option String) :
    ∀ a ∈ (delete_conn_step b bk cn kn sn).1, a.isDelete = true := by
  unfold delete_conn_step
  have h := delete_kb_step_only bk kn sn
  repeat' split
  all_goals simp_all [Action.isDelete, List.forall_mem_cons]

theorem delete_resources_only (b : Builder) (bk : Backend) (an av cn kn sn : Option String) :
    ∀ a ∈ (delete_resources b bk an av cn kn sn).1, a.isDelete = true := by
  unfold delete_resources
  have h := delete_conn_step_only b bk cn kn sn
  repeat' split
  all_goals simp_all [Action.isDelete, List.forall_mem_cons]

theorem onlyDeletes_createNames (l : List Action) (h : ∀ a ∈ l, a.isDelete = true) :
    createNames l = [] := by
  induction l with
  | nil => rfl
  | cons a t ih =>
      have ht := ih fun x hx => h x (List.mem_cons_of_mem a hx)
      have ha := h a (List.mem_cons_self a t)
      cases a <;> simp_all [createNames, createdName, Action.isDelete, List.filterMap_cons]

theorem onlyDeletes_connectionTargets (l : List Action) (h : ∀ a ∈ l, a.isDelete = true) :
    connectionTargets l = [] := by
  induction l with
  | nil => rfl
  | cons a t ih =>
      have ht := ih fun x hx => h x (List.mem_cons_of_mem a hx)
      have ha := h a (List.mem_cons_self a t)
      cases a <;> simp_all [connectionTargets, Action.isDelete, List.filterMap_cons]

theorem onlyDeletes_retrieveActions (l : List Action) (h : ∀ a ∈ l, a.isDelete = true) :
    retrieveActions l = [] := by
  induction l with
  | nil => rfl
  | cons a t ih =>
      have ht := ih fun x hx => h x (List.mem_cons_of_mem a hx)
      have ha := h a (List.mem_cons_self a t)
      cases a <;> simp_all [retrieveActions, Action.isDelete, List.filter_cons]

/-! ### run_finish preserves the creation/retrieval trace -/

theorem run_finish_createNames (b : Builder) (bk : Backend) (args : Args)
    (ksn kbn cn ep : String) (ag : Agent) (acts : List Action) (out : List String) :
    createNames (run_finish b bk args ksn kbn cn ep ag acts out).actions =
      createNames acts := by
  unfold run_finish
  have hd := onlyDeletes_createNames _
    (delete_resources_only b bk (some args.agent_name) (some ag.version)
      (some cn) (some kbn) (some ksn))
  split
  · rcases hdr : (delete_resources b bk (some args.agent_name) (some ag.version)
        (some cn) (some kbn) (some ksn)).2.2 with _ | e <;>
      simp [hdr, createNames_append, hd]
  · rfl

theorem run_finish_connectionTargets (b : Builder) (bk : Backend) (args : Args)
    (ksn kbn cn ep : String) (ag : Agent) (acts : List Action) (out : List String) :
    connectionTargets (run_finish b bk args ksn kbn cn ep ag acts out).actions =
      connectionTargets acts := by
  unfold run_finish
  have hd := onlyDeletes_connectionTargets _
    (delete_resources_only b bk (some args.agent_name) (some ag.version)
      (some cn) (some kbn) (some ksn))
  split
  · rcases hdr : (delete_resources b bk (some args.agent_name) (some ag.version)
        (some cn) (some kbn) (some ksn)).2.2 with _ | e <;>
      simp [hdr, connectionTargets_append, hd]
  · rfl

theorem run_finish_retrieveActions (b : Builder) (bk : Backend) (args : Args)
    (ksn kbn cn ep : String) (ag : Agent) (acts : List Action) (out : List String) :
    retrieveActions (run_finish b bk args ksn kbn cn ep ag acts out).actions =
      retrieveActions acts := by
  unfold run_finish
  have hd := onlyDeletes_retrieveActions _
    (delete_resources_only b bk (some args.agent_name) (some ag.version)
      (some cn) (some kbn) (some ksn))
  split
  · rcases hdr : (delete_resources b bk (some args.agent_name) (some ag.version)
        (some cn) (some kbn) (some ksn)).2.2 with _ | e <;>
      simp [hdr, retrieveActions_append, hd]
  · rfl

theorem run_finish_output_mem (b : Builder) (bk : Backend) (args : Args)
    (ksn kbn cn ep : String) (ag : Agent) (acts : List Action) (out : List String)
    (l : String) (hl : l ∈ out) :
    l ∈ (run_finish b bk args ksn kbn cn ep ag acts out).output := by
  unfold run_finish
  split
  · rcases hdr : (delete_resources b bk (some args.agent_name) (some ag.version)
        (some cn) (some kbn) (some ksn)).2.2 with _ | e <;>
      simp [hdr, hl]
  · simp [hl]

/-! ## C1 -/

theorem raise_for_status_none (r : HttpResponse) (url : String) (h : r.status < 400) :
    raise_for_status r url = none := by
  unfold raise_for_status
  split_ifs with h1 h2
  · omega
  · omega
  · rfl

/-- C1: for every valid input (non-empty agent name, index name and source
fields) and a backend accepting all four creation calls, `run_provision`
issues exactly the four create/upsert calls `ks-<agentName>`,
`kb-<agentName>`, `conn-<agentName>`, `<agentName>`, in that order, and
the `target` of the connection equals the derived retrieval
endpoint `<searchEndpoint>/knowledgebases/kb-<agentName>/mcp?api-version=2025-11-01-preview`. -/
theorem provision_creates_four_in_order (b : Builder) (bk : Backend) (args : Args)
    (hA : args.agent_name ≠ "") (hI : args.index_name ≠ "") (hF : args.source_fields ≠ [])
    (h1 : bk.ks_create_error = none) (h2 : bk.kb_create_error = none)
    (h3 : bk.conn_put_response.status < 400) (h4 : bk.agent_create_error = none) :
    createNames (run_provision b bk args).actions =
      ["ks-" ++ args.agent_name, "kb-" ++ args.agent_name, "conn-" ++ args.agent_name,
       args.agent_name]
    ∧ connectionTargets (run_provision b bk args).actions =
      [b.search_endpoint ++ "/knowledgebases/" ++ ("kb-" ++ args.agent_name)
        ++ "/mcp?api-version=" ++ API_VERSION] := by
  have hrfs := raise_for_status_none bk.conn_put_response
    (connection_put_url b ("conn-" ++ args.agent_name)) h3
  unfold run_provision
  simp only [create_knowledge_source, create_knowledge_base, create_project_connection,
    create_agent, query_knowledge_base, h1, h2, h4, hrfs]
  repeat' split
  all_goals simp only [run_finish_createNames, run_finish_connectionTargets]
  all_goals simp_all [createNames, createdName, connectionTargets, pyTruthy,
    List.filterMap_cons, List.filterMap_append]

theorem provision_creates_four_in_order_witness :
    createNames (run_provision builder0 {}
        { index_name := "idx", agent_name := "demo" }).actions =
      ["ks-" ++ "demo", "kb-" ++ "demo", "conn-" ++ "demo", "demo"]
    ∧ connectionTargets (run_provision builder0 {}
        { index_name := "idx", agent_name := "demo" }).actions =
      [builder0.search_endpoint ++ "/knowledgebases/" ++ ("kb-" ++ "demo")
        ++ "/mcp?api-version=" ++ API_VERSION] :=
  provision_creates_four_in_order builder0 {} { index_name := "idx", agent_name := "demo" }
    (by decide) (by decide) (by decide) rfl rfl (by decide) rfl

/-! ## C7 -/

/-- C7: when the caller does not pass `--source-fields`, the argparse
default is the 2-element list `["id", "title"]`, and the knowledge-source
upsert issued first by the run carries exactly those two citation fields
(the 3-element fallback inside `create_knowledge_source` is dead via the
CLI, which always passes the parsed list). -/
theorem default_source_fields_two (b : Builder) (bk : Backend) (i : String) :
    ({ index_name := i } : Args).source_fields = ["id", "title"]
    ∧ ({ index_name := i } : Args).source_fields.length = 2
    ∧ (run_provision b bk { index_name := i }).actions.head? =
        some (Action.createKnowledgeSource {
          name := "ks-" ++ "foundry-iq-agent"
          description := "Knowledge source from index: " ++ i
          search_index_parameters := {
            search_index_name := i
            source_data_fields := [{ name := "id" }, { name := "title" }] } }) := by
  refine ⟨rfl, rfl, ?_⟩
  unfold run_provision run_finish
  simp only [create_knowledge_source, create_knowledge_base, create_project_connection,
    create_agent, query_knowledge_base]
  repeat' split
  all_goals simp [List.map]
  all_goals rfl

/-! ## C3 -/

theorem raise_for_status_some (r : HttpResponse) (url : String)
    (h3 : 400 ≤ r.status) (h6 : r.status < 600) :
    ∃ kind, raise_for_status r url =
      some (.httpError (toString r.status ++ kind ++ r.reason ++ " for url: " ++ url)
        r.text) := by
  unfold raise_for_status
  rcases Nat.lt_or_ge r.status 500 with h5 | h5
  · exact ⟨" Client Error: ", by rw [if_pos ⟨h3, h5⟩]⟩
  · refine ⟨" Server Error: ", ?_⟩
    rw [if_neg (by omega), if_pos ⟨h5, h6⟩]

/-- C3: if step 3 (the connection PUT) fails with an HTTP error status, the
run stops with exit code 1; the trace consists of the two successful
upserts of steps 1–2 (`ks-<agentName>`, `kb-<agentName>`) followed only by
the failed connection PUT; no deletion is ever attempted, so the two
resources of steps 1–2 are not rolled back; and a surfaced error line
contains `/connections/conn-<agentName>`, identifying the connection as
the failed step. -/
theorem connection_failure_no_rollback (b : Builder) (bk : Backend) (args : Args)
    (h1 : bk.ks_create_error = none) (h2 : bk.kb_create_error = none)
    (h3 : 400 ≤ bk.conn_put_response.status) (h3b : bk.conn_put_response.status < 600) :
    (run_provision b bk args).exit = 1
    ∧ createNames (run_provision b bk args).actions =
        ["ks-" ++ args.agent_name, "kb-" ++ args.agent_name, "conn-" ++ args.agent_name]
    ∧ deleteActions (run_provision b bk args).actions = []
    ∧ ∃ line, line ∈ (run_provision b bk args).output
        ∧ strContains line ("/connections/" ++ ("conn-" ++ args.agent_name)) := by
  obtain ⟨kind, hrfs⟩ := raise_for_status_some bk.conn_put_response
    (connection_put_url b ("conn-" ++ args.agent_name)) h3 h3b
  unfold run_provision
  simp only [create_knowledge_source, create_knowledge_base, create_project_connection,
    create_agent, query_knowledge_base, h1, h2, hrfs, handle_error]
  refine ⟨by trivial, by simp [createNames, createdName], by simp [deleteActions, Action.isDelete], ?_⟩
  refine ⟨"\n✗ API Error: " ++ (toString bk.conn_put_response.status ++ kind
      ++ bk.conn_put_response.reason ++ " for url: "
      ++ connection_put_url b ("conn-" ++ args.agent_name)), by simp, ?_⟩
  unfold strContains
  refine ⟨"\n✗ API Error: " ++ toString bk.conn_put_response.status ++ kind
      ++ bk.conn_put_response.reason ++ " for url: " ++ "https://management.azure.com"
      ++ b.project_resource_id, "?api-version=" ++ MGMT_API_VERSION, ?_⟩
  simp only [connection_put_url, String.append_assoc]

def bkConnFail : Backend :=
  { conn_put_response := { status := 403, reason := "Forbidden", text := "denied" } }

theorem connection_failure_no_rollback_witness :
    (run_provision builder0 bkConnFail { index_name := "idx", agent_name := "demo" }).exit = 1
    ∧ createNames (run_provision builder0 bkConnFail
        { index_name := "idx", agent_name := "demo" }).actions =
        ["ks-" ++ "demo", "kb-" ++ "demo", "conn-" ++ "demo"]
    ∧ deleteActions (run_provision builder0 bkConnFail
        { index_name := "idx", agent_name := "demo" }).actions = []
    ∧ ∃ line, line ∈ (run_provision builder0 bkConnFail
          { index_name := "idx", agent_name := "demo" }).output
        ∧ strContains line ("/connections/" ++ ("conn-" ++ "demo")) :=
  connection_failure_no_rollback builder0 bkConnFail { index_name := "idx", agent_name := "demo" }
    rfl rfl (by decide) (by decide)

/-! ## C9 -/

/-- C9: a deletion is attempted during a run only when the cleanup flag was
set and every provisioning step succeeded — the four creation calls, and
the test query (when requested) returned a non-empty first message.  On
any provisioning failure no deletion is ever attempted, even with
`--cleanup`. -/
theorem cleanup_only_after_full_success (b : Builder) (bk : Backend) (args : Args)
    (h : deleteActions (run_provision b bk args).actions ≠ []) :
    args.cleanup = true
    ∧ bk.ks_create_error = none ∧ bk.kb_create_error = none
    ∧ raise_for_status bk.conn_put_response
        (connection_put_url b ("conn-" ++ args.agent_name)) = none
    ∧ bk.agent_create_error = none
    ∧ ∀ q, args.test_query = some q →
        ∃ resp, bk.retrieve_result = Except.ok resp ∧ first_text resp ≠ none := by
  unfold run_provision at h
  simp only [create_knowledge_source, create_knowledge_base, create_project_connection,
    create_agent, query_knowledge_base] at h
  cases h1 : bk.ks_create_error with
  | some e => simp [h1, deleteActions, Action.isDelete] at h
  | none =>
  simp only [h1] at h
  cases h2 : bk.kb_create_error with
  | some e => simp [h2, deleteActions, Action.isDelete] at h
  | none =>
  simp only [h2] at h
  cases h3 : raise_for_status bk.conn_put_response
      (connection_put_url b ("conn-" ++ args.agent_name)) with
  | some e => simp [h3, deleteActions, Action.isDelete] at h
  | none =>
  simp only [h3] at h
  cases h4 : bk.agent_create_error with
  | some e => simp [h4, deleteActions, Action.isDelete] at h
  | none =>
  simp only [h4] at h
  cases hq : args.test_query with
  | none =>
      simp only [hq] at h
      by_cases hc : args.cleanup = true
      · exact ⟨hc, rfl, rfl, rfl, rfl, fun q hqq => by cases hqq⟩
      · exfalso
        apply h
        unfold run_finish
        have hcf : args.cleanup = false := by
          cases hcc : args.cleanup
          · rfl
          · exact absurd hcc hc
        simp [hcf, deleteActions, Action.isDelete]
  | some q =>
      simp only [hq] at h
      cases hr : bk.retrieve_result with
      | error e => simp [hr, deleteActions, Action.isDelete] at h
      | ok resp =>
      simp only [hr] at h
      cases hft : first_text resp with
      | none => simp [hft, deleteActions, Action.isDelete] at h
      | some t =>
      simp only [hft] at h
      by_cases hc : args.cleanup = true
      · refine ⟨hc, rfl, rfl, rfl, rfl, fun q2 hqq => ?_⟩
        exact ⟨resp, rfl, by simp [hft]⟩
      · exfalso
        apply h
        unfold run_finish
        have hcf : args.cleanup = false := by
          cases hcc : args.cleanup
          · rfl
          · exact absurd hcc hc
        simp [hcf, deleteActions, Action.isDelete]

def argsCleanup : Args := { index_name := "idx", agent_name := "demo", cleanup := true }

theorem cleanup_only_after_full_success_witness :
    argsCleanup.cleanup = true
    ∧ ({} : Backend).ks_create_error = none
    ∧ ({} : Backend).kb_create_error = none
    ∧ raise_for_status ({} : Backend).conn_put_response
        (connection_put_url builder0 ("conn-" ++ argsCleanup.agent_name)) = none
    ∧ ({} : Backend).agent_create_error = none
    ∧ ∀ q, argsCleanup.test_query = some q →
        ∃ resp, ({} : Backend).retrieve_result = Except.ok resp ∧ first_text resp ≠ none :=
  cleanup_only_after_full_success builder0 {} argsCleanup (by decide)

/-! ## C5 -/

def bkEmptyResp : Backend := { retrieve_result := .ok { response := [] } }

/-- C5 counterexample: with a backend returning zero messages for the test
query, the run fails through the generic catch-all handler with the
message of the Python `IndexError` ("list index out of range") and exit
code 1 — it is not a dedicated retrieval-specific error: no
`RetrievalError` kind exists anywhere in the script, the failure is
indistinguishable from any other generic exception. -/
theorem smoke_test_zero_messages_cex :
    (run_provision builder0 bkEmptyResp
        { index_name := "idx", agent_name := "demo", test_query := some "hello" }).exit = 1
    ∧ "\n✗ Error: list index out of range" ∈
        (run_provision builder0 bkEmptyResp
          { index_name := "idx", agent_name := "demo", test_query := some "hello" }).output := by
  decide

/-- C5 (amended): the smoke test issues exactly one retrieval request,
scoped to knowledge source `ks-<agentName>` within knowledge base
`kb-<agentName>`; with at least one response message, the leading
first text content is surfaced (truncated to 500 characters); but when
the backend returns zero messages the failure is the generic
`IndexError` message "list index out of range" routed through the
catch-all `except Exception` handler with exit code 1, not a dedicated
`RetrievalError` (no such kind exists in the script). -/
theorem smoke_test_scoped_one_request (b : Builder) (bk : Backend) (args : Args) (q : String)
    (h1 : bk.ks_create_error = none) (h2 : bk.kb_create_error = none)
    (h3 : bk.conn_put_response.status < 400) (h4 : bk.agent_create_error = none)
    (hq : args.test_query = some q) :
    retrieveActions (run_provision b bk args).actions =
      [Action.retrieve ("kb-" ++ args.agent_name)
        { messages := [{ role := "user", content := [{ text := q }] }]
          knowledge_source_params := [{
            knowledge_source_name := "ks-" ++ args.agent_name
            include_references := true
            include_reference_source_data := true }]
          include_activity := true }]
    ∧ (bk.retrieve_result = Except.ok { response := [] } →
        (run_provision b bk args).exit = 1
        ∧ "\n✗ Error: list index out of range" ∈ (run_provision b bk args).output)
    ∧ (∀ resp m ms, bk.retrieve_result = Except.ok resp → resp.response = m :: ms →
        ∀ c cs, m.content = c :: cs →
        "Response: " ++ c.text.take 500 ++ "..." ∈ (run_provision b bk args).output) := by
  have hrfs := raise_for_status_none bk.conn_put_response
    (connection_put_url b ("conn-" ++ args.agent_name)) h3
  unfold run_provision
  simp only [create_knowledge_source, create_knowledge_base, create_project_connection,
    create_agent, query_knowledge_base, h1, h2, h4, hrfs, hq]
  refine ⟨?_, ?_, ?_⟩
  · cases hr : bk.retrieve_result with
    | error e => simp [hr, retrieveActions]
    | ok resp =>
        cases hft : first_text resp with
        | none => simp [hr, hft, retrieveActions]
        | some t =>
            simp only [hr, hft, run_finish_retrieveActions]
            simp [retrieveActions]
  · intro hre
    simp only [hre, first_text]
    exact ⟨by trivial, by simp [handle_error]⟩
  · intro resp m ms hre hresp c cs hm
    have hft : first_text resp = some c.text := by
      simp [first_text, hresp, hm]
    simp only [hre, hft]
    apply run_finish_output_mem
    simp

theorem smoke_test_scoped_one_request_witness :
    retrieveActions (run_provision builder0 {}
        { index_name := "idx", agent_name := "demo", test_query := some "hello" }).actions =
      [Action.retrieve ("kb-" ++ "demo")
        { messages := [{ role := "user", content := [{ text := "hello" }] }]
          knowledge_source_params := [{
            knowledge_source_name := "ks-" ++ "demo"
            include_references := true
            include_reference_source_data := true }]
          include_activity := true }]
    ∧ (({} : Backend).retrieve_result = Except.ok { response := [] } →
        (run_provision builder0 {}
          { index_name := "idx", agent_name := "demo", test_query := some "hello" }).exit = 1
        ∧ "\n✗ Error: list index out of range" ∈
            (run_provision builder0 {}
              { index_name := "idx", agent_name := "demo", test_query := some "hello" }).output)
    ∧ (∀ resp m ms, ({} : Backend).retrieve_result = Except.ok resp → resp.response = m :: ms →
        ∀ c cs, m.content = c :: cs →
        "Response: " ++ c.text.take 500 ++ "..." ∈
          (run_provision builder0 {}
            { index_name := "idx", agent_name := "demo", test_query := some "hello" }).output) :=
  smoke_test_scoped_one_request builder0 {}
    { index_name := "idx", agent_name := "demo", test_query := some "hello" } "hello"
    rfl rfl (by decide) rfl rfl

end AgentSkills
